import Mathlib

/-!
Verification of the delay-propagation engine in `planung.py` (stskit).

Shallow embedding conventions:
* time-of-day values are minutes since midnight (`Int`); an absent time
  (`None` / `AttributeError` from `time_to_minutes` in the source) is `none`;
* the `angekommen` / `abgefahren` attributes hold `False`, `True` or a
  timestamp in the source; the engine only ever reads their truthiness
  (lines 1082, 1094 of planung.py), so they are embedded as `Bool`;
* an uncaught Python exception inside an `anwenden` method is embedded as an
  `Option`-valued result `none`;
* the resolved follow-up-train references `ersatzzug` / `kuppelzug` /
  `fluegelzug` are embedded as the `zid` of the target train (`none` when the
  reference is unresolved / the train object is missing).
-/

/-- Key of a node of the target graph (`ZugZielNode` in planung.py):
type tag, train id, planned track. -/
structure ZugZielNode where
  typ : Char
  zid : Int
  plangleis : String
  deriving DecidableEq, Repr

/-- The correction variants (`VerspaetungsKorrektur` subclasses).  For the
`AnkunftAbwarten` / `AbfahrtAbwarten` variants the `ursprung` row reference is
embedded as the key (train id, planned track) of the origin row. -/
inductive Korrektur where
  | basis : Korrektur
  | festeVerspaetung : Int → Korrektur
  | signalhalt : Int → Korrektur
  | einfahrtszeit : Korrektur
  | planmaessigeAbfahrt : Korrektur
  | ankunftAbwarten : Int → String → Int → Korrektur
  | abfahrtAbwarten : Int → String → Int → Korrektur
  | ersatzzug : Korrektur
  | kupplung : Korrektur
  | fluegelung : Korrektur
  deriving DecidableEq, Repr

/-- A timetable row (`ZugZielPlanung`). -/
structure ZugZielPlanung where
  plan : String
  an : Option Int
  ab : Option Int
  zielnr : Nat
  einfahrt : Bool
  ausfahrt : Bool
  durchfahrt : Bool
  verspaetung_an : Int
  verspaetung_ab : Int
  mindestaufenthalt : Int
  angekommen : Bool
  abgefahren : Bool
  auto_korrektur : Option Korrektur
  fdl_korrektur : Option Korrektur
  ersatz_zid : Option Int
  kuppel_zid : Option Int
  fluegel_zid : Option Int
  deriving DecidableEq, Repr

/-- A train (`ZugDetailsPlanung`). -/
structure ZugDetailsPlanung where
  zid : Int
  gleis : String
  plangleis : String
  sichtbar : Bool
  amgleis : Bool
  verspaetung : Int
  ausgefahren : Bool
  fahrplan : List ZugZielPlanung
  deriving DecidableEq, Repr

/-- Python's `max` over a non-empty list (the engine only calls it on
non-empty lists). -/
def pyMax (l : List Int) : Int :=
  l.foldl max (l.headD 0)

/-- `Einfahrtszeit.anwenden` (planung.py lines 110-125): the entry departure
may not be earlier than the current simulator time.  When the planned arrival
is absent the source logs at debug level and falls back to
`verspaetung_ab := verspaetung_an`.  When the planned departure is absent it
defaults to the planned arrival (line 121). -/
def einfahrtszeitAnwenden (ziel : ZugZielPlanung) (simzeit : Int) : ZugZielPlanung :=
  match ziel.an with
  | none => { ziel with verspaetung_ab := ziel.verspaetung_an }
  | some plan_an =>
      let plan_ab := ziel.ab.getD plan_an
      let ankunft := plan_an + ziel.verspaetung_an
      let abfahrt := max ankunft simzeit
      { ziel with verspaetung_ab := abfahrt - plan_ab }

/-- `PlanmaessigeAbfahrt.anwenden` (lines 139-155): regular dwell-respecting
recovery.  The planned departure defaults to planned arrival plus minimum
dwell (line 150). -/
def planmaessigeAbfahrtAnwenden (ziel : ZugZielPlanung) : ZugZielPlanung :=
  match ziel.an with
  | none => { ziel with verspaetung_ab := ziel.verspaetung_an }
  | some plan_an =>
      let plan_ab := ziel.ab.getD (plan_an + ziel.mindestaufenthalt)
      let ankunft := plan_an + ziel.verspaetung_an
      let aufenthalt := max (plan_ab - ankunft) ziel.mindestaufenthalt
      { ziel with verspaetung_ab := ankunft + aufenthalt - plan_ab }

/-- `AnkunftAbwarten.anwenden` (lines 184-203).  `ursprung` is the resolved
origin row.  The source has no fallback branch: when both own planned times
are absent, line 193 computes `None + mindestaufenthalt` and raises an
uncaught `TypeError`; when the origin's planned arrival is absent, line 200
raises an uncaught `AttributeError`.  Both are embedded as `none`. -/
def ankunftAbwartenAnwenden (ziel ursprung : ZugZielPlanung) (wartezeit : Int) :
    Option ZugZielPlanung :=
  let plan_ab? := match ziel.ab with
    | some x => some x
    | none => ziel.an.map (· + ziel.mindestaufenthalt)
  match plan_ab? with
  | none => none
  | some plan_ab =>
      let plan_an := ziel.an.getD plan_ab
      let ankunft := plan_an + ziel.verspaetung_an
      let aufenthalt := max (plan_ab - ankunft) ziel.mindestaufenthalt
      match ursprung.an with
      | none => none
      | some u_an =>
          let anschluss_ab := u_an + ursprung.verspaetung_an + wartezeit
          some { ziel with verspaetung_ab := max (ankunft + aufenthalt) anschluss_ab - plan_ab }

/-- `AbfahrtAbwarten.anwenden` (lines 231-250): like `AnkunftAbwarten` but
waiting for the origin row's departure. -/
def abfahrtAbwartenAnwenden (ziel ursprung : ZugZielPlanung) (wartezeit : Int) :
    Option ZugZielPlanung :=
  let plan_ab? := match ziel.ab with
    | some x => some x
    | none => ziel.an.map (· + ziel.mindestaufenthalt)
  match plan_ab? with
  | none => none
  | some plan_ab =>
      let plan_an := ziel.an.getD plan_ab
      let ankunft := plan_an + ziel.verspaetung_an
      let aufenthalt := max (plan_ab - ankunft) ziel.mindestaufenthalt
      match ursprung.ab with
      | none => none
      | some u_ab =>
          let anschluss_ab := u_ab + ursprung.verspaetung_ab + wartezeit
          some { ziel with verspaetung_ab := max (ankunft + aufenthalt) anschluss_ab - plan_ab }

/-- `Ersatzzug.anwenden` (lines 263-287), the part acting on the row itself.
`ersatzErsteAn?` is the planned arrival of the first row of the replacement
train (`ziel.ersatzzug.fahrplan[0].an`), `none` when the train, the row or
its time is missing.  Line 283 writes the actual departure time back into
`ziel.ab`. -/
def ersatzzugAnwenden (ziel : ZugZielPlanung) (ersatzErsteAn? : Option Int) : ZugZielPlanung :=
  match ziel.an with
  | none => { ziel with verspaetung_ab := ziel.verspaetung_an }
  | some plan_an =>
      let plan_ab := ersatzErsteAn?.getD (ziel.ab.getD (plan_an + ziel.mindestaufenthalt))
      let ankunft := plan_an + ziel.verspaetung_an
      let aufenthalt := max (plan_ab - ankunft) ziel.mindestaufenthalt
      let abfahrt := ankunft + aufenthalt
      let v_ab := abfahrt - plan_ab
      { ziel with verspaetung_ab := v_ab, ab := some (abfahrt - v_ab) }

/-- `Fluegelung.anwenden` (lines 349-365), the part acting on the row itself
(same arithmetic as `PlanmaessigeAbfahrt`). -/
def fluegelungAnwenden (ziel : ZugZielPlanung) : ZugZielPlanung :=
  match ziel.an with
  | none => { ziel with verspaetung_ab := ziel.verspaetung_an }
  | some plan_an =>
      let plan_ab := ziel.ab.getD (plan_an + ziel.mindestaufenthalt)
      let ankunft := plan_an + ziel.verspaetung_an
      let aufenthalt := max (plan_ab - ankunft) ziel.mindestaufenthalt
      { ziel with verspaetung_ab := ankunft + aufenthalt - plan_ab }

/-- The separation loop of `Kupplung.anwenden` (lines 329-330):
`while abs(kuppel_an - (plan_an + ziel.verspaetung_an)) < 2:
   ziel.verspaetung_an += 1`.
Returns the final value of `verspaetung_an`. -/
def kuppelSchleife (kuppel_an plan_an v : Int) : Int :=
  if |kuppel_an - (plan_an + v)| < 2 then kuppelSchleife kuppel_an plan_an (v + 1) else v
termination_by (kuppel_an + 2 - (plan_an + v)).toNat
decreasing_by
  rename_i h
  rw [abs_lt] at h
  omega

/-- Number of iterations performed by the separation loop. -/
def kuppelSchleifeAnzahl (kuppel_an plan_an v : Int) : Nat :=
  if |kuppel_an - (plan_an + v)| < 2 then kuppelSchleifeAnzahl kuppel_an plan_an (v + 1) + 1 else 0
termination_by (kuppel_an + 2 - (plan_an + v)).toNat
decreasing_by
  rename_i h
  rw [abs_lt] at h
  omega

/-- `kuppel_an` of `Kupplung.anwenden` (lines 319-327).  The partner row is
looked up with `find_fahrplan_index(plan=ziel.plan)`.  An unresolved partner
reference (`ziel.kuppelzug` is `None`) raises an `AttributeError` on the
attribute access, which line 326 catches: `kuppel_an = 0`.  A found row whose
arrival time is absent likewise ends in the caught `AttributeError` raised by
`time_to_minutes`.  But for a *known* partner train without a row at the
coupling track, `find_fahrplan_index` returns `None` and `fahrplan[None]`
(line 323) raises a `TypeError` that `except (AttributeError, IndexError)`
does not catch: an uncaught crash, embedded as `none`. -/
def kuppelAnkunft (kuppelzug? : Option ZugDetailsPlanung) (plan : String) : Option Int :=
  match kuppelzug? with
  | none => some 0
  | some kzug =>
      match kzug.fahrplan.find? fun t => t.plan == plan with
      | none => none
      | some kziel =>
          match kziel.an with
          | none => some 0
          | some a => some (a + kziel.verspaetung_an)

/-- `Kupplung.anwenden` (lines 306-335), the part acting on the row itself
after the partner train has been recomputed.  `kuppelzug?` is the resolved
partner train in the recomputed state; the result is `none` when the
`kuppel_an` lookup raises the uncaught `TypeError` (see `kuppelAnkunft`),
which escapes before any mutation of the row. -/
def kupplungAnwenden (ziel : ZugZielPlanung) (kuppelzug? : Option ZugDetailsPlanung) :
    Option ZugZielPlanung :=
  match ziel.an with
  | none => some { ziel with verspaetung_ab := ziel.verspaetung_an }
  | some plan_an =>
      let plan_ab := ziel.ab.getD (plan_an + ziel.mindestaufenthalt)
      match kuppelAnkunft kuppelzug? ziel.plan with
      | none => none
      | some kuppel_an =>
          let v_an := kuppelSchleife kuppel_an plan_an ziel.verspaetung_an
          let ankunft := plan_an + v_an
          let aufenthalt := max (plan_ab - ankunft) ziel.mindestaufenthalt
          let abfahrt := max (ankunft + aufenthalt) kuppel_an
          some { ziel with verspaetung_an := v_an, verspaetung_ab := abfahrt - plan_ab }

/-- The arrival part of one step of `Planung.verspaetungen_korrigieren`
(lines 1082-1091).  `predVab` is the list of `v_ab` attributes of the
predecessor nodes in the target graph.  Returns the updated row and the value
published as the node's `v_an` attribute. -/
def ankunftSchritt (zug : ZugDetailsPlanung) (ziel : ZugZielPlanung) (predVab : List Int) :
    ZugZielPlanung × Int :=
  if ziel.angekommen then (ziel, ziel.verspaetung_an)
  else
    let einbeziehen := ziel.einfahrt || zug.plangleis == ziel.plan || predVab.isEmpty
    let ziel' := if einbeziehen then { ziel with verspaetung_an := zug.verspaetung } else ziel
    let v := if einbeziehen then predVab ++ [zug.verspaetung] else predVab
    (ziel', pyMax v)

/-- The `abfahrt` branch of `Planung.ereignis_uebernehmen` (lines 1307-1314).
When `amgleis` is set and the delay is positive a `Signalhalt` correction is
installed; when `amgleis` is not set the departure delay is taken over and
the row is marked departed; in the remaining case (`amgleis` with delay `≤ 0`)
the source does nothing. -/
def ereignisAbfahrt (ziel : ZugZielPlanung) (amgleis : Bool) (verspaetung : Int) :
    ZugZielPlanung :=
  if amgleis then
    if verspaetung > 0 then
      { ziel with auto_korrektur := some (.signalhalt verspaetung) }
    else ziel
  else
    { ziel with verspaetung_ab := verspaetung, abgefahren := true }

/-- Marking of trains that disappeared from the snapshot, from
`Planung.zuege_uebernehmen` (lines 824-835): a known train whose `zid` is not
in the snapshot is marked as departed-from-system — but only if it was
visible (`if zug.sichtbar`, line 830). -/
def zugAusfahrtMarkieren (snapshotZids : List Int) (zug : ZugDetailsPlanung) :
    ZugDetailsPlanung :=
  if zug.zid ∈ snapshotZids then zug
  else if zug.sichtbar then
    { zug with
        sichtbar := false, amgleis := false, gleis := "", plangleis := "",
        ausgefahren := true,
        fahrplan := zug.fahrplan.map fun zeile => { zeile with abgefahren := true } }
  else zug

/-- Step 3 of the ingestion applied to the whole train list. -/
def ausgefahreneMarkieren (zuege : List ZugDetailsPlanung) (snapshotZids : List Int) :
    List ZugDetailsPlanung :=
  zuege.map (zugAusfahrtMarkieren snapshotZids)

/-- Look up a train by `zid` (`self.zugbaum.nodes[zid]['obj']`). -/
def zugFinden (zuege : List ZugDetailsPlanung) (zid : Int) : Option ZugDetailsPlanung :=
  zuege.find? fun z => z.zid == zid

/-- Look up a row of a train by planned track (`find_fahrplanzeile(plan=...)`;
each planned track occurs at most once in a timetable). -/
def zielFinden (zuege : List ZugDetailsPlanung) (zid : Int) (plan : String) :
    Option ZugZielPlanung :=
  (zugFinden zuege zid).bind fun z => z.fahrplan.find? fun t => t.plan == plan

/-- Node type tag of `Planung._zugziel_node` (lines 896-918): entry, exit,
operational stop (`zielnr` not a multiple of 1000), pass-through, hold. -/
def zielTyp (ziel : ZugZielPlanung) : Char :=
  if ziel.einfahrt then 'E'
  else if ziel.ausfahrt then 'A'
  else if ziel.zielnr > ziel.zielnr / 1000 * 1000 then 'B'
  else if ziel.durchfahrt then 'D'
  else 'H'

/-- `Planung._zugziel_node` with default arguments. -/
def zugzielNode (ziel : ZugZielPlanung) (zid : Int) : ZugZielNode :=
  ⟨zielTyp ziel, zid, ziel.plan⟩

/-- An edge of the target graph: source node, destination node, edge type. -/
abbrev ZielKante := ZugZielNode × ZugZielNode × Char

/-- The `'A'` edge added for a dispatcher correction that has an `ursprung`
attribute (lines 1009-1014); corrections without that attribute raise an
`AttributeError` that the source catches and ignores. -/
def fdlUrsprungKanten (zuege : List ZugDetailsPlanung) (ziel : ZugZielPlanung)
    (zzid2 : ZugZielNode) : List ZielKante :=
  match ziel.fdl_korrektur with
  | some (.ankunftAbwarten uzid uplan _) =>
      match zielFinden zuege uzid uplan with
      | some u => [(zugzielNode u uzid, zzid2, 'A')]
      | none => []
  | some (.abfahrtAbwarten uzid uplan _) =>
      match zielFinden zuege uzid uplan with
      | some u => [(zugzielNode u uzid, zzid2, 'A')]
      | none => []
  | _ => []

/-- The follow-up-train edges proposed for one row by
`Planung._zielgraph_erstellen` (lines 1000-1014).  The replace/couple/split
flags of the row are embedded as the already-parsed peer `zid`s.  Every edge
is added to the graph unconditionally (`nx.DiGraph.add_edge`); the source
performs no cycle check here.  (The bookkeeping edges added to `zugbaum` are
not part of the target graph and are omitted.) -/
def zielKanten (zuege : List ZugDetailsPlanung) (zid2 : Int) (ziel2 : ZugZielPlanung) :
    List ZielKante :=
  let zzid2 := zugzielNode ziel2 zid2
  (match ziel2.ersatz_zid with
   | some zid => [(zzid2, ⟨'H', zid, ziel2.plan⟩, 'E')]
   | none => []) ++
  (match ziel2.kuppel_zid with
   | some zid => [(zzid2, ⟨'H', zid, ziel2.plan⟩, 'K')]
   | none => []) ++
  (match ziel2.fluegel_zid with
   | some zid => [(zzid2, ⟨'H', zid, ziel2.plan⟩, 'F')]
   | none => []) ++
  fdlUrsprungKanten zuege ziel2 zzid2

/-- Edges contributed by one train's timetable: the `'P'` sequence edge from
the previous row (line 999) plus the peer edges of each row. -/
def fahrplanKanten (zuege : List ZugDetailsPlanung) (zid2 : Int) :
    List ZugZielPlanung → Option ZugZielNode → List ZielKante
  | [], _ => []
  | ziel2 :: rest, prev =>
      let zzid2 := zugzielNode ziel2 zid2
      (match prev with
       | some zzid1 => [(zzid1, zzid2, 'P')]
       | none => []) ++
      zielKanten zuege zid2 ziel2 ++
      fahrplanKanten zuege zid2 rest (some zzid2)

/-- All edges of the target graph built by `Planung._zielgraph_erstellen`
from the current train list. -/
def zielgraphKanten (zuege : List ZugDetailsPlanung) : List ZielKante :=
  zuege.flatMap fun zug => fahrplanKanten zuege zug.zid zug.fahrplan none

/-- Direct successors of a node along the edge list. -/
def nachfolger (kanten : List ZielKante) (n : ZugZielNode) : List ZugZielNode :=
  kanten.filterMap fun e => if e.1 == n then some e.2.1 else none

/-- Fuel-bounded forward closure of a node set along the edges. -/
def erreichbarAux (kanten : List ZielKante) : Nat → List ZugZielNode → List ZugZielNode
  | 0, s => s
  | fuel + 1, s =>
      let neu := (s.flatMap (nachfolger kanten)).filter fun m => !s.contains m
      match neu with
      | [] => s
      | _ => erreichbarAux kanten fuel (s ++ neu)

/-- `b` is reachable from `a` along the edges (paths of length up to the
number of edges suffice). -/
def erreicht (kanten : List ZielKante) (a b : ZugZielNode) : Bool :=
  (erreichbarAux kanten kanten.length [a]).contains b

/-- The edge list contains a directed cycle: some edge closes a path back to
its own source. -/
def hatZyklus (kanten : List ZielKante) : Bool :=
  kanten.any fun e => erreicht kanten e.2.1 e.1

/-- The engine state (`Planung`): train list, target-graph edges, target-graph
node attributes `(key, v_an, v_ab)`, the remaining contents of the stored
topological-order iterator `zielsortierung`, and the simulator clock.
`nx.topological_sort` (planung.py line 1020) returns a lazy generator, so
`self.zielsortierung` behaves as a one-shot iterator shared by all nested
sweeps; it is embedded as the list of items not yet consumed. -/
structure Planung where
  zuege : List ZugDetailsPlanung
  kanten : List ZielKante
  knoten : List (ZugZielNode × Int × Int)
  zielsortierung : List ZugZielNode
  simzeit_minuten : Int
  deriving DecidableEq, Repr

/-- Row of the target-graph node `n` (`self.zielgraph.nodes[node]['obj']`). -/
def planungZielFinden (p : Planung) (n : ZugZielNode) : Option ZugZielPlanung :=
  zielFinden p.zuege n.zid n.plangleis

/-- Train owning the target-graph node `n` (`ziel.zug`). -/
def planungZugFinden (p : Planung) (zid : Int) : Option ZugDetailsPlanung :=
  zugFinden p.zuege zid

/-- In-place mutation of a train object. -/
def zugAktualisieren (p : Planung) (zid : Int)
    (f : ZugDetailsPlanung → ZugDetailsPlanung) : Planung :=
  { p with zuege := p.zuege.map fun z => if z.zid == zid then f z else z }

/-- In-place mutation of a row object (identified by train and planned
track, the key used by `find_fahrplanzeile`). -/
def zielAktualisieren (p : Planung) (zid : Int) (plan : String)
    (f : ZugZielPlanung → ZugZielPlanung) : Planung :=
  zugAktualisieren p zid fun z =>
    { z with fahrplan := z.fahrplan.map fun t => if t.plan == plan then f t else t }

/-- Write the `v_an` attribute of a target-graph node (line 1091). -/
def knotenVanSetzen (p : Planung) (n : ZugZielNode) (v : Int) : Planung :=
  { p with knoten := p.knoten.map fun e => if e.1 == n then (e.1, v, e.2.2) else e }

/-- Write the `v_ab` attribute of a target-graph node (line 1102). -/
def knotenVabSetzen (p : Planung) (n : ZugZielNode) (v : Int) : Planung :=
  { p with knoten := p.knoten.map fun e => if e.1 == n then (e.1, e.2.1, v) else e }

/-- Read the `v_ab` attribute of a target-graph node (default `0` for a node
that only exists as an edge endpoint and carries no attributes; the source
would raise a `KeyError` there). -/
def knotenVab (p : Planung) (n : ZugZielNode) : Int :=
  ((p.knoten.find? fun e => e.1 == n).map fun e => e.2.2).getD 0

/-- `v_ab` of all predecessors of `n` in the target graph (line 1083). -/
def vorgaengerVab (p : Planung) (n : ZugZielNode) : List Int :=
  p.kanten.filterMap fun e => if e.2.1 == n then some (knotenVab p e.1) else none

/-- Publish `data['v_ab'] = ziel.verspaetung_ab` (line 1102), reading the
row's current departure delay from the state. -/
def vabPublizieren (p : Planung) (n : ZugZielNode) : Planung :=
  knotenVabSetzen p n (((planungZielFinden p n).map ZugZielPlanung.verspaetung_ab).getD 0)

/-- The correction that is applied to a not-yet-departed row (lines
1095-1100): the dispatcher correction wins over the automatic one; with
neither present the default `verspaetung_ab := verspaetung_an` is exactly the
base class behaviour. -/
def wirksameKorrektur (ziel : ZugZielPlanung) : Korrektur :=
  match ziel.fdl_korrektur with
  | some k => k
  | none => ziel.auto_korrektur.getD .basis

/-- `ziel.fluegelzug.fahrplan[0].verspaetung_an = ...` (line 369); on an
empty timetable the source would raise an uncaught `IndexError`, embedded as
a no-op. -/
def ersteZeileVerspaetungAn (v : Int) (z : ZugDetailsPlanung) : ZugDetailsPlanung :=
  match z.fahrplan with
  | [] => z
  | t :: rest => { z with fahrplan := { t with verspaetung_an := v } :: rest }

/-- One sweep of `Planung.verspaetungen_korrigieren` (lines 1069-1102) over
the pending items of the shared topological-order iterator.  The pending list
is threaded explicitly because the recursive `zugverspaetung_korrigieren`
calls made by `Ersatzzug` (line 287), `Kupplung` (lines 321, 338) and
`Fluegelung` (line 370) iterate the same exhausted-once generator: they
consume the remaining items and deeper calls find it empty.  A node whose
row object is missing is skipped (the source would raise a `KeyError` on
`data['obj']`); a failing `anwenden` (see `ankunftAbwartenAnwenden`,
`kupplungAnwenden`) leaves
the row unchanged (the source would let the exception escape).  The fuel is
an upper bound on the number of nodes still consumable; the caller passes the
pending length, which suffices because every node is popped at most once. -/
def sweepFuel : Nat → List ZugZielNode → Planung → Planung × List ZugZielNode
  | 0, rest, p => (p, rest)
  | _ + 1, [], p => (p, [])
  | f + 1, n :: rest, p =>
      match planungZielFinden p n, planungZugFinden p n.zid with
      | some ziel, some zug =>
          let s := ankunftSchritt zug ziel (vorgaengerVab p n)
          let ziel1 := s.1
          let p2 := knotenVanSetzen (zielAktualisieren p n.zid n.plangleis fun _ => s.1) n s.2
          if ziel1.abgefahren then
            sweepFuel f rest (knotenVabSetzen p2 n ziel1.verspaetung_ab)
          else
            match wirksameKorrektur ziel1 with
            | .basis =>
                sweepFuel f rest (vabPublizieren
                  (zielAktualisieren p2 n.zid n.plangleis fun z =>
                    { z with verspaetung_ab := z.verspaetung_an }) n)
            | .festeVerspaetung v =>
                sweepFuel f rest (vabPublizieren
                  (zielAktualisieren p2 n.zid n.plangleis fun z =>
                    { z with verspaetung_ab := v }) n)
            | .signalhalt v =>
                sweepFuel f rest (vabPublizieren
                  (zielAktualisieren p2 n.zid n.plangleis fun z =>
                    { z with verspaetung_ab := v }) n)
            | .einfahrtszeit =>
                sweepFuel f rest (vabPublizieren
                  (zielAktualisieren p2 n.zid n.plangleis fun z =>
                    einfahrtszeitAnwenden z p2.simzeit_minuten) n)
            | .planmaessigeAbfahrt =>
                sweepFuel f rest (vabPublizieren
                  (zielAktualisieren p2 n.zid n.plangleis planmaessigeAbfahrtAnwenden) n)
            | .ankunftAbwarten uzid uplan w =>
                match zielFinden p2.zuege uzid uplan with
                | some u =>
                    match ankunftAbwartenAnwenden ziel1 u w with
                    | some z2 =>
                        sweepFuel f rest (vabPublizieren
                          (zielAktualisieren p2 n.zid n.plangleis fun _ => z2) n)
                    | none => sweepFuel f rest (vabPublizieren p2 n)
                | none => sweepFuel f rest (vabPublizieren p2 n)
            | .abfahrtAbwarten uzid uplan w =>
                match zielFinden p2.zuege uzid uplan with
                | some u =>
                    match abfahrtAbwartenAnwenden ziel1 u w with
                    | some z2 =>
                        sweepFuel f rest (vabPublizieren
                          (zielAktualisieren p2 n.zid n.plangleis fun _ => z2) n)
                    | none => sweepFuel f rest (vabPublizieren p2 n)
                | none => sweepFuel f rest (vabPublizieren p2 n)
            | .ersatzzug =>
                match ziel1.an with
                | none =>
                    sweepFuel f rest (vabPublizieren
                      (zielAktualisieren p2 n.zid n.plangleis fun z =>
                        { z with verspaetung_ab := z.verspaetung_an }) n)
                | some _ =>
                    let ersteAn := ((ziel1.ersatz_zid.bind (zugFinden p2.zuege)).bind
                      fun z => z.fahrplan.head?).bind ZugZielPlanung.an
                    let ziel2 := ersatzzugAnwenden ziel1 ersteAn
                    let p3 := zielAktualisieren p2 n.zid n.plangleis fun _ => ziel2
                    match ziel1.ersatz_zid.bind (zugFinden p3.zuege) with
                    | some ez =>
                        let p4 := zugAktualisieren p3 ez.zid fun z =>
                          { z with verspaetung := ziel2.verspaetung_ab }
                        let r := sweepFuel f rest p4
                        sweepFuel f r.2 (vabPublizieren r.1 n)
                    | none => sweepFuel f rest (vabPublizieren p3 n)
            | .kupplung =>
                match ziel1.an with
                | none =>
                    sweepFuel f rest (vabPublizieren
                      (zielAktualisieren p2 n.zid n.plangleis fun z =>
                        { z with verspaetung_ab := z.verspaetung_an }) n)
                | some _ =>
                    let r1 := sweepFuel f rest p2
                    let zielB := (planungZielFinden r1.1 n).getD ziel1
                    let kzug := ziel1.kuppel_zid.bind (zugFinden r1.1.zuege)
                    let zielC := (kupplungAnwenden zielB kzug).getD zielB
                    let pB := zielAktualisieren r1.1 n.zid n.plangleis fun _ => zielC
                    if (ziel1.kuppel_zid.bind (zugFinden pB.zuege)).isSome then
                      let r2 := sweepFuel f r1.2 pB
                      sweepFuel f r2.2 (vabPublizieren r2.1 n)
                    else
                      sweepFuel f r1.2 (vabPublizieren pB n)
            | .fluegelung =>
                match ziel1.an with
                | none =>
                    sweepFuel f rest (vabPublizieren
                      (zielAktualisieren p2 n.zid n.plangleis fun z =>
                        { z with verspaetung_ab := z.verspaetung_an }) n)
                | some _ =>
                    let ziel2 := fluegelungAnwenden ziel1
                    let p3 := zielAktualisieren p2 n.zid n.plangleis fun _ => ziel2
                    match ziel1.fluegel_zid.bind (zugFinden p3.zuege) with
                    | some fz =>
                        let p4 := zugAktualisieren p3 fz.zid fun z =>
                          ersteZeileVerspaetungAn ziel2.verspaetung_an
                            { z with verspaetung := ziel2.verspaetung_an }
                        let r := sweepFuel f rest p4
                        sweepFuel f r.2 (vabPublizieren r.1 n)
                    | none => sweepFuel f rest (vabPublizieren p3 n)
      | _, _ => sweepFuel f rest p

/-- `Planung.verspaetungen_korrigieren`: run the sweep over the remaining
contents of the stored topological-order iterator; afterwards the iterator
holds whatever was not consumed (always nothing, see `sweepFuel_nil`). -/
def verspaetungenKorrigieren (p : Planung) : Planung :=
  let r := sweepFuel p.zielsortierung.length p.zielsortierung p
  { r.1 with zielsortierung := r.2 }

/-- The sweep only consumes items of the shared iterator, it never adds
any. -/
lemma sweepFuel_laenge : ∀ (f : Nat) (l : List ZugZielNode) (p : Planung),
    ((sweepFuel f l p).2).length ≤ l.length := by
  intro f
  induction f with
  | zero => intro l p; simp [sweepFuel]
  | succ f ih =>
      intro l p
      cases l with
      | nil => simp [sweepFuel]
      | cons n rest =>
          simp only [sweepFuel, List.length_cons]
          repeat' split
          all_goals
            first
            | exact Nat.le_succ_of_le (ih _ _)
            | exact Nat.le_succ_of_le (le_trans (ih _ _) (ih _ _))
            | exact Nat.le_succ_of_le (le_trans (ih _ _) (le_trans (ih _ _) (ih _ _)))

/-- With fuel at least the pending length the sweep exhausts the iterator:
after `verspaetungen_korrigieren` nothing remains to be iterated. -/
lemma sweepFuel_nil : ∀ (f : Nat) (l : List ZugZielNode) (p : Planung),
    l.length ≤ f → (sweepFuel f l p).2 = [] := by
  intro f
  induction f with
  | zero =>
      intro l p h
      have hl : l = [] := List.eq_nil_of_length_eq_zero (Nat.le_zero.mp h)
      subst hl
      simp [sweepFuel]
  | succ f ih =>
      intro l p h
      cases l with
      | nil => simp [sweepFuel]
      | cons n rest =>
          have h2 : rest.length ≤ f := by
            simp only [List.length_cons] at h
            omega
          simp only [sweepFuel]
          repeat' split
          all_goals
            first
            | exact ih _ _ h2
            | exact ih _ _ (le_trans (sweepFuel_laenge _ _ _) h2)
            | exact ih _ _ (le_trans (sweepFuel_laenge _ _ _)
                (le_trans (sweepFuel_laenge _ _ _) h2))

/-- A sweep over an already-exhausted iterator is the identity. -/
lemma verspaetungenKorrigieren_leer (q : Planung) (h : q.zielsortierung = []) :
    verspaetungenKorrigieren q = q := by
  unfold verspaetungenKorrigieren
  rw [h]
  cases q with
  | mk zuege kanten knoten zs simzeit =>
      simp only at h
      subst h
      simp [sweepFuel]

/-- `foldl max` never drops below its initial accumulator. -/
lemma foldl_max_init_le : ∀ (l : List Int) (i : Int), i ≤ l.foldl max i := by
  intro l
  induction l with
  | nil => intro i; simp
  | cons a t ih =>
      intro i
      simpa using le_trans (le_max_left i a) (ih (max i a))

/-- Every list element is bounded by `foldl max`. -/
lemma foldl_max_mem_le : ∀ (l : List Int) (i x : Int), x ∈ l → x ≤ l.foldl max i := by
  intro l
  induction l with
  | nil => intro i x hx; cases hx
  | cons a t ih =>
      intro i x hx
      cases hx with
      | head => simpa using le_trans (le_max_right i a) (foldl_max_init_le t (max i a))
      | tail _ h => simpa using ih (max i a) x h

/-- `foldl max` yields the initial accumulator or a list element. -/
lemma foldl_max_faelle : ∀ (l : List Int) (i : Int), l.foldl max i = i ∨ l.foldl max i ∈ l := by
  intro l
  induction l with
  | nil => intro i; left; rfl
  | cons a t ih =>
      intro i
      rcases ih (max i a) with h | h
      · rcases max_choice i a with he | he
        · left; simp only [List.foldl_cons]; rw [h, he]
        · right; simp only [List.foldl_cons]; rw [h, he]; exact List.mem_cons_self a t
      · right; simp only [List.foldl_cons]; exact List.mem_cons_of_mem a h

/-- Every element is bounded by `pyMax`. -/
lemma pyMax_ge (l : List Int) (x : Int) (hx : x ∈ l) : x ≤ pyMax l :=
  foldl_max_mem_le l (l.headD 0) x hx

/-- On a non-empty list `pyMax` is attained by an element, as Python's
`max`. -/
lemma pyMax_zugehoerig (l : List Int) (hl : l ≠ []) : pyMax l ∈ l := by
  unfold pyMax
  rcases foldl_max_faelle l (l.headD 0) with h | h
  · rw [h]
    cases l with
    | nil => exact absurd rfl hl
    | cons a t => simp
  · exact h

/-- Unfolding equation of the coupling separation loop. -/
lemma kuppelSchleife_entfalten (ka pa v : Int) :
    kuppelSchleife ka pa v =
      if |ka - (pa + v)| < 2 then kuppelSchleife ka pa (v + 1) else v := by
  rw [kuppelSchleife]

/-- Unfolding equation of the loop iteration counter. -/
lemma kuppelSchleifeAnzahl_entfalten (ka pa v : Int) :
    kuppelSchleifeAnzahl ka pa v =
      if |ka - (pa + v)| < 2 then kuppelSchleifeAnzahl ka pa (v + 1) + 1 else 0 := by
  rw [kuppelSchleifeAnzahl]

/-- Closed form of the separation loop: unchanged when the trains are already
two minutes apart, otherwise the delay is pushed to exactly two minutes past
the partner's arrival. -/
lemma kuppelSchleife_geschlossen (ka pa v : Int) :
    kuppelSchleife ka pa v = if |ka - (pa + v)| < 2 then ka + 2 - pa else v := by
  by_cases h : |ka - (pa + v)| < 2
  · rw [if_pos h]
    rw [abs_lt] at h
    have hd : ka - pa - v = -1 ∨ ka - pa - v = 0 ∨ ka - pa - v = 1 := by omega
    rcases hd with hd | hd | hd
    · rw [kuppelSchleife_entfalten, if_pos (by rw [abs_lt]; omega),
        kuppelSchleife_entfalten, if_neg (by rw [abs_lt]; omega)]
      omega
    · rw [kuppelSchleife_entfalten, if_pos (by rw [abs_lt]; omega),
        kuppelSchleife_entfalten, if_pos (by rw [abs_lt]; omega),
        kuppelSchleife_entfalten, if_neg (by rw [abs_lt]; omega)]
      omega
    · rw [kuppelSchleife_entfalten, if_pos (by rw [abs_lt]; omega),
        kuppelSchleife_entfalten, if_pos (by rw [abs_lt]; omega),
        kuppelSchleife_entfalten, if_pos (by rw [abs_lt]; omega),
        kuppelSchleife_entfalten, if_neg (by rw [abs_lt]; omega)]
      omega
  · rw [if_neg h, kuppelSchleife_entfalten, if_neg h]

/-- Closed form of the iteration count. -/
lemma kuppelSchleifeAnzahl_geschlossen (ka pa v : Int) :
    kuppelSchleifeAnzahl ka pa v =
      if |ka - (pa + v)| < 2 then (ka - pa - v + 2).toNat else 0 := by
  by_cases h : |ka - (pa + v)| < 2
  · rw [if_pos h]
    rw [abs_lt] at h
    have hd : ka - pa - v = -1 ∨ ka - pa - v = 0 ∨ ka - pa - v = 1 := by omega
    rcases hd with hd | hd | hd
    · rw [kuppelSchleifeAnzahl_entfalten, if_pos (by rw [abs_lt]; omega),
        kuppelSchleifeAnzahl_entfalten, if_neg (by rw [abs_lt]; omega)]
      omega
    · rw [kuppelSchleifeAnzahl_entfalten, if_pos (by rw [abs_lt]; omega),
        kuppelSchleifeAnzahl_entfalten, if_pos (by rw [abs_lt]; omega),
        kuppelSchleifeAnzahl_entfalten, if_neg (by rw [abs_lt]; omega)]
      omega
    · rw [kuppelSchleifeAnzahl_entfalten, if_pos (by rw [abs_lt]; omega),
        kuppelSchleifeAnzahl_entfalten, if_pos (by rw [abs_lt]; omega),
        kuppelSchleifeAnzahl_entfalten, if_pos (by rw [abs_lt]; omega),
        kuppelSchleifeAnzahl_entfalten, if_neg (by rw [abs_lt]; omega)]
      omega
  · rw [if_neg h, kuppelSchleifeAnzahl_entfalten, if_neg h]

/-- C10: the coupling separation loop of `Kupplung.anwenden` terminates for
every input: `kuppel_an` is fixed before the loop and `ziel.verspaetung_an`
strictly increases by one per iteration, so the loop runs at most
`max 0 (kuppel_an - plan_an - v) + 2` times, the final delay is the initial
delay plus the iteration count, and afterwards the separation condition
`|kuppel_an - (plan_an + verspaetung_an)| < 2` no longer holds. -/
theorem c10_kuppelschleife_terminiert (ka pa v : Int) :
    (kuppelSchleifeAnzahl ka pa v : Int) ≤ max 0 (ka - pa - v) + 2 ∧
    kuppelSchleife ka pa v = v + (kuppelSchleifeAnzahl ka pa v : Int) ∧
    ¬ |ka - (pa + kuppelSchleife ka pa v)| < 2 := by
  have h1 := kuppelSchleife_geschlossen ka pa v
  have h2 := kuppelSchleifeAnzahl_geschlossen ka pa v
  have hmax1 : (0 : Int) ≤ max 0 (ka - pa - v) := le_max_left _ _
  have hmax2 : ka - pa - v ≤ max 0 (ka - pa - v) := le_max_right _ _
  by_cases h : |ka - (pa + v)| < 2
  · rw [if_pos h] at h1 h2
    rw [abs_lt] at h
    refine ⟨?_, ?_, ?_⟩
    · rw [h2]; omega
    · rw [h1, h2]; omega
    · rw [h1, abs_lt]; omega
  · rw [if_neg h] at h1 h2
    refine ⟨?_, ?_, ?_⟩
    · rw [h2]; omega
    · rw [h1, h2]; omega
    · rw [h1]; exact h

/-- A neutral timetable row, basis of the concrete scenarios below. -/
def zielLeer : ZugZielPlanung :=
  { plan := "", an := none, ab := none, zielnr := 0,
    einfahrt := false, ausfahrt := false, durchfahrt := false,
    verspaetung_an := 0, verspaetung_ab := 0, mindestaufenthalt := 0,
    angekommen := false, abgefahren := false,
    auto_korrektur := none, fdl_korrektur := none,
    ersatz_zid := none, kuppel_zid := none, fluegel_zid := none }

/-- Row of train 1 in the cycle scenario: hold at track "1", coupling flag
naming train 2. -/
def zielKuppelA : ZugZielPlanung :=
  { zielLeer with plan := "1", an := some 600, ab := some 601, kuppel_zid := some 2 }

/-- Row of train 2 in the cycle scenario: hold at track "1", coupling flag
naming train 1. -/
def zielKuppelB : ZugZielPlanung :=
  { zielLeer with plan := "1", an := some 600, ab := some 601, kuppel_zid := some 1 }

/-- Train 1 for the cycle scenario. -/
def zugKuppelA : ZugDetailsPlanung :=
  { zid := 1, gleis := "1", plangleis := "1", sichtbar := true, amgleis := false,
    verspaetung := 0, ausgefahren := false, fahrplan := [zielKuppelA] }

/-- Train 2 for the cycle scenario. -/
def zugKuppelB : ZugDetailsPlanung :=
  { zid := 2, gleis := "1", plangleis := "1", sichtbar := true, amgleis := false,
    verspaetung := 0, ausgefahren := false, fahrplan := [zielKuppelB] }

/-- C1: the target graph is claimed to stay acyclic because any proposed edge
that would close a cycle is rejected and logged.  In fact
`Planung._zielgraph_erstellen` inserts every proposed edge unconditionally
(`nx.DiGraph.add_edge`, lines 999-1012): for two trains that each carry a
coupling flag naming the other at the same track, both `'K'` edges are
accepted and the resulting target graph contains a directed cycle — contrary
to the claim and to the method's own docstring ("modifikationen, die zyklen
verursachen wuerden, muessen abgewiesen werden", lines 929-930).  The
subsequent `nx.topological_sort` (line 1020) merely returns a lazy generator,
so not even the logging branch of lines 1019-1022 fires; the failure
surfaces later when the order is iterated. -/
theorem c1_zielgraph_zyklus_akzeptiert :
    (⟨'H', 1, "1"⟩, ⟨'H', 2, "1"⟩, 'K') ∈ zielgraphKanten [zugKuppelA, zugKuppelB] ∧
    (⟨'H', 2, "1"⟩, ⟨'H', 1, "1"⟩, 'K') ∈ zielgraphKanten [zugKuppelA, zugKuppelB] ∧
    hatZyklus (zielgraphKanten [zugKuppelA, zugKuppelB]) = true := by
  decide

/-- Train for the arrival-step scenario: top-level delay 3, heading for
track "1". -/
def zugAnkunftC : ZugDetailsPlanung :=
  { zid := 1, gleis := "1", plangleis := "1", sichtbar := true, amgleis := false,
    verspaetung := 3, ausgefahren := false, fahrplan := [] }

/-- Row for the arrival-step scenario: the current planned row (same planned
track as the train), not yet arrived. -/
def zielAnkunftC : ZugZielPlanung :=
  { zielLeer with plan := "1", an := some 600, ab := some 602 }

/-- C2 counterexample: the claim states that the row's `verspaetung_an` is
assigned the maximum of the predecessors' `v_ab` (with the train delay
included exactly for an entry, the current planned row, or a row without
predecessors).  For the current planned row with predecessor value 10 and
train delay 3 that maximum is 10, but lines 1085-1087 assign the plain train
delay 3 to the row (`ziel.verspaetung_an = zug.verspaetung`); only the node
attribute `v_an` receives the maximum. -/
theorem c2_gegenbeispiel :
    (ankunftSchritt zugAnkunftC zielAnkunftC [10]).1.verspaetung_an = 3 ∧
    pyMax ([10] ++ [zugAnkunftC.verspaetung]) = 10 ∧
    (3 : Int) ≠ 10 := by
  decide

/-- C2 amended: during the sweep, for a row that has not arrived the *node
attribute* `v_an` is set to the maximum of the predecessors' `v_ab` values,
extended by the train's top-level delay exactly when the row is an entry, the
current planned row, or has no predecessors; the *row's* `verspaetung_an` is
overwritten with the train's top-level delay exactly in that case and is left
unchanged otherwise.  For a row already arrived both keep the realized
arrival delay. -/
theorem c2_ankunftsschritt_abgeaendert (zug : ZugDetailsPlanung) (ziel : ZugZielPlanung)
    (predVab : List Int) :
    (ziel.angekommen = true → ankunftSchritt zug ziel predVab = (ziel, ziel.verspaetung_an)) ∧
    (ziel.angekommen = false →
      (ankunftSchritt zug ziel predVab).1 =
        (if ziel.einfahrt || zug.plangleis == ziel.plan || predVab.isEmpty then
          { ziel with verspaetung_an := zug.verspaetung }
        else ziel) ∧
      (∀ x ∈ predVab, x ≤ (ankunftSchritt zug ziel predVab).2) ∧
      ((ziel.einfahrt || zug.plangleis == ziel.plan || predVab.isEmpty) = true →
        zug.verspaetung ≤ (ankunftSchritt zug ziel predVab).2) ∧
      ((ankunftSchritt zug ziel predVab).2 ∈ predVab ∨
        ((ziel.einfahrt || zug.plangleis == ziel.plan || predVab.isEmpty) = true ∧
          (ankunftSchritt zug ziel predVab).2 = zug.verspaetung))) := by
  constructor
  · intro h
    simp [ankunftSchritt, h]
  · intro h
    by_cases he : (ziel.einfahrt || zug.plangleis == ziel.plan || predVab.isEmpty) = true
    · have hs : ankunftSchritt zug ziel predVab =
          ({ ziel with verspaetung_an := zug.verspaetung },
            pyMax (predVab ++ [zug.verspaetung])) := by
        simp [ankunftSchritt, h, he]
      rw [hs, if_pos he]
      refine ⟨rfl, ?_, ?_, ?_⟩
      · intro x hx
        exact pyMax_ge _ x (List.mem_append_left _ hx)
      · intro _
        exact pyMax_ge _ _ (List.mem_append_right _ (List.mem_singleton_self _))
      · have hm := pyMax_zugehoerig (predVab ++ [zug.verspaetung]) (by simp)
        rcases List.mem_append.mp hm with hm | hm
        · exact Or.inl hm
        · exact Or.inr ⟨he, List.mem_singleton.mp hm⟩
    · have he' : (ziel.einfahrt || zug.plangleis == ziel.plan || predVab.isEmpty) = false :=
        Bool.not_eq_true _ ▸ Bool.eq_false_iff.mpr he
      have hne : predVab ≠ [] := by
        intro hnil
        rw [hnil] at he'
        simp at he'
      have hs : ankunftSchritt zug ziel predVab = (ziel, pyMax predVab) := by
        simp [ankunftSchritt, h, he']
      rw [hs, if_neg (by rw [he']; exact Bool.false_ne_true)]
      refine ⟨rfl, ?_, ?_, ?_⟩
      · intro x hx
        exact pyMax_ge _ x hx
      · intro hc
        rw [he'] at hc
        cases hc
      · exact Or.inl (pyMax_zugehoerig _ hne)

/-- C2 witness: the amended statement evaluated at the counterexample input
(current planned row, one predecessor with `v_ab = 10`, train delay 3). -/
theorem c2_zeuge :
    (ankunftSchritt zugAnkunftC zielAnkunftC [10]).1 =
      { zielAnkunftC with verspaetung_an := 3 } ∧
    (10 : Int) ≤ (ankunftSchritt zugAnkunftC zielAnkunftC [10]).2 := by
  have h := (c2_ankunftsschritt_abgeaendert zugAnkunftC zielAnkunftC [10]).2 rfl
  refine ⟨?_, h.2.1 10 (by simp)⟩
  have h1 := h.1
  rw [if_pos (by decide)] at h1
  exact h1

/-- Coupling row of scenario S4: planned arrival 10:30 (= minute 630). -/
def zielS4 : ZugZielPlanung :=
  { zielLeer with
    plan := "7", an := some 630, ab := some 631,
    mindestaufenthalt := 1, kuppel_zid := some 2 }

/-- Partner row of scenario S4 at the same track, also at minute 630. -/
def kuppelZielS4 : ZugZielPlanung :=
  { zielLeer with plan := "7", an := some 630 }

/-- Partner train of scenario S4: carries the partner row at track "7". -/
def zugKuppelS4 : ZugDetailsPlanung :=
  { zid := 2, gleis := "7", plangleis := "7", sichtbar := true, amgleis := false,
    verspaetung := 0, ausgefahren := false, fahrplan := [kuppelZielS4] }

/-- A known partner train that has no row at the coupling track "7". -/
def zugKuppelOhne : ZugDetailsPlanung :=
  { zid := 2, gleis := "8", plangleis := "8", sichtbar := true, amgleis := false,
    verspaetung := 0, ausgefahren := false,
    fahrplan := [{ zielLeer with plan := "8", an := some 640 }] }

/-- C3 counterexample: the claim says `ka` is 0 whenever "the partner or its
row is unknown".  For a *known* partner train without a row at the coupling
track, `find_fahrplan_index` returns `None` (compare the `is None` checks at
lines 490-493 and 1266) and `fahrplan[None]` at line 323 raises a `TypeError`
that `except (AttributeError, IndexError)` does not catch: the correction
aborts with an uncaught exception (embedded as `none`) instead of computing
with `ka = 0` — which here would have left the row unchanged, since
`|0 - 630| ≥ 2` stops the loop at once and
`max(a + dwell, 0) - p_d = max(631, 0) - 631 = 0`. -/
theorem c3_gegenbeispiel :
    kupplungAnwenden zielS4 (some zugKuppelOhne) = none ∧
    kuppelSchleife 0 630 0 = 0 ∧
    max (630 + 0 + max (631 - (630 + 0)) 1) 0 - 631 = (0 : Int) ∧
    (none : Option ZugZielPlanung) ≠
      some { zielS4 with verspaetung_an := 0, verspaetung_ab := 0 } := by
  refine ⟨by decide, ?_, by decide, by decide⟩
  rw [kuppelSchleife_geschlossen, if_neg (by rw [abs_lt]; omega)]

/-- C3 amended: `Kupplung.anwenden` on a row with known planned arrival:
`ka` is the partner row's planned arrival plus its arrival delay; it is 0
when the partner train reference is unresolved or the partner row's arrival
time is absent, but when the partner train is known and has *no row at the
coupling track* the lookup crashes with an uncaught `TypeError` (line 323)
and the correction aborts without mutating the row.  In the non-crashing
case the arrival delay is incremented by one while
`|ka - (plan_an + verspaetung_an)| < 2` — untouched when the separation is
already at least two minutes, otherwise pushed to exactly `ka + 2 - pa` —
and the departure delay becomes `max(a + dwell, ka) - p_d`; when both trains
coincide at the same minute the arrival delay grows by exactly 2 and the
final separation is exactly 2. -/
theorem c3_kupplung_abgeaendert (ziel : ZugZielPlanung)
    (kuppelzug? : Option ZugDetailsPlanung) (pa v0 pab : Int)
    (han : ziel.an = some pa) (hv0 : v0 = ziel.verspaetung_an)
    (hpab : pab = ziel.ab.getD (pa + ziel.mindestaufenthalt)) :
    (kuppelAnkunft kuppelzug? ziel.plan = none →
      kupplungAnwenden ziel kuppelzug? = none) ∧
    (∀ kzug, kuppelzug? = some kzug →
      (kzug.fahrplan.find? fun t => t.plan == ziel.plan) = none →
      kuppelAnkunft kuppelzug? ziel.plan = none) ∧
    (kuppelzug? = none → kuppelAnkunft kuppelzug? ziel.plan = some 0) ∧
    ∀ ka, kuppelAnkunft kuppelzug? ziel.plan = some ka →
      ∃ r, kupplungAnwenden ziel kuppelzug? = some r ∧
        (2 ≤ |ka - (pa + v0)| → r.verspaetung_an = v0) ∧
        (|ka - (pa + v0)| < 2 →
          r.verspaetung_an = ka + 2 - pa ∧ v0 ≤ r.verspaetung_an) ∧
        2 ≤ |ka - (pa + r.verspaetung_an)| ∧
        r.verspaetung_ab =
          max (pa + r.verspaetung_an
                + max (pab - (pa + r.verspaetung_an)) ziel.mindestaufenthalt) ka - pab ∧
        (ka = pa + v0 →
          r.verspaetung_an = v0 + 2 ∧ |ka - (pa + r.verspaetung_an)| = 2) := by
  subst hv0 hpab
  refine ⟨?_, ?_, ?_, ?_⟩
  · intro h
    simp [kupplungAnwenden, han, h]
  · intro kzug hkz hfind
    simp [kuppelAnkunft, hkz, hfind]
  · intro h
    simp [kuppelAnkunft, h]
  · intro ka hka
    have hg := kuppelSchleife_geschlossen ka pa ziel.verspaetung_an
    refine ⟨{ ziel with
        verspaetung_an := kuppelSchleife ka pa ziel.verspaetung_an,
        verspaetung_ab :=
          max (pa + kuppelSchleife ka pa ziel.verspaetung_an
                + max (ziel.ab.getD (pa + ziel.mindestaufenthalt)
                        - (pa + kuppelSchleife ka pa ziel.verspaetung_an))
                    ziel.mindestaufenthalt) ka
            - ziel.ab.getD (pa + ziel.mindestaufenthalt) }, ?_, ?_, ?_, ?_, ?_, ?_⟩
    · simp [kupplungAnwenden, han, hka]
    · intro h
      show kuppelSchleife ka pa ziel.verspaetung_an = ziel.verspaetung_an
      rw [hg, if_neg (not_lt.mpr h)]
    · intro h
      show kuppelSchleife ka pa ziel.verspaetung_an = ka + 2 - pa ∧
        ziel.verspaetung_an ≤ kuppelSchleife ka pa ziel.verspaetung_an
      rw [hg, if_pos h]
      rw [abs_lt] at h
      exact ⟨rfl, by omega⟩
    · show 2 ≤ |ka - (pa + kuppelSchleife ka pa ziel.verspaetung_an)|
      by_cases h : |ka - (pa + ziel.verspaetung_an)| < 2
      · rw [hg, if_pos h]
        have h2 : ka - (pa + (ka + 2 - pa)) = -2 := by ring
        rw [h2]
        norm_num
      · rw [hg, if_neg h]
        exact not_lt.mp h
    · rfl
    · intro h
      have hlt : |ka - (pa + ziel.verspaetung_an)| < 2 := by
        rw [h]
        simp
      show kuppelSchleife ka pa ziel.verspaetung_an = ziel.verspaetung_an + 2 ∧
        |ka - (pa + kuppelSchleife ka pa ziel.verspaetung_an)| = 2
      rw [hg, if_pos hlt]
      constructor
      · omega
      · have h2 : ka - (pa + (ka + 2 - pa)) = -2 := by ring
        rw [h2]
        norm_num

/-- C3 witness: scenario S4 through the amended statement — both trains at
minute 630: the arrival delay rises by exactly 2 and the final separation is
exactly 2 minutes. -/
theorem c3_zeuge :
    ((kupplungAnwenden zielS4 (some zugKuppelS4)).getD zielLeer).verspaetung_an
      = 0 + 2 ∧
    |(630 : Int)
      - (630 + ((kupplungAnwenden zielS4 (some zugKuppelS4)).getD
          zielLeer).verspaetung_an)| = 2 := by
  obtain ⟨r, hr1, _, _, _, _, hs4⟩ :=
    (c3_kupplung_abgeaendert zielS4 (some zugKuppelS4) 630 0 631 rfl rfl
      (by decide)).2.2.2 630 (by decide)
  obtain ⟨h1, h2⟩ := hs4 (by decide)
  rw [hr1, Option.getD_some]
  exact ⟨h1, h2⟩

/-- Entry row for the C4 counterexample: planned arrival 10:00, planned
departure absent, minimum dwell 2. -/
def zielEinfahrtC : ZugZielPlanung :=
  { zielLeer with
    plan := "2", an := some 600, ab := none, einfahrt := true,
    mindestaufenthalt := 2 }

/-- Entry row of scenario S1: planned arrival and departure 10:00. -/
def zielS1 : ZugZielPlanung :=
  { zielLeer with plan := "3", an := some 600, ab := some 600, einfahrt := true }

/-- C4 counterexample: the claim says the planned departure defaults to
`p_a + min_dwell_minutes` when absent; `Einfahrtszeit.anwenden` (line 121)
defaults it to `p_a` alone.  With planned arrival 600, no planned departure,
minimum dwell 2 and simulator clock 605 the code yields departure delay 5,
while the claimed formula `max(a, clock) - (p_a + min_dwell)` yields 3. -/
theorem c4_gegenbeispiel :
    (einfahrtszeitAnwenden zielEinfahrtC 605).verspaetung_ab = 5 ∧
    max (600 + 0) 605 - (600 + 2) = (3 : Int) ∧
    (5 : Int) ≠ 3 := by
  decide

/-- C4 amended: `Einfahrtszeit.anwenden` sets
`verspaetung_ab = max(p_a + verspaetung_an, simzeit) - p_d` where `p_d`
defaults to the plain planned arrival `p_a` (not `p_a + min_dwell`) when the
planned departure is absent; scenario S1 (entry planned 10:00, clock 10:05,
no other delay) still yields departure delay 5. -/
theorem c4_einfahrtszeit_abgeaendert (ziel : ZugZielPlanung) (simzeit pa : Int)
    (han : ziel.an = some pa) :
    einfahrtszeitAnwenden ziel simzeit =
      { ziel with
        verspaetung_ab := max (pa + ziel.verspaetung_an) simzeit - ziel.ab.getD pa } := by
  simp [einfahrtszeitAnwenden, han]

/-- C4 witness: scenario S1 evaluated through the amended statement. -/
theorem c4_zeuge :
    zielS1.an = some 600 ∧ (einfahrtszeitAnwenden zielS1 605).verspaetung_ab = 5 := by
  refine ⟨rfl, ?_⟩
  rw [c4_einfahrtszeit_abgeaendert zielS1 605 600 rfl]
  decide

/-- Hold row of scenario S2: arrival 10:00 + 4 late, planned departure 10:07,
minimum dwell 2. -/
def zielS2 : ZugZielPlanung :=
  { zielLeer with
    plan := "4", an := some 600, ab := some 607, verspaetung_an := 4,
    mindestaufenthalt := 2 }

/-- C5: `PlanmaessigeAbfahrt.anwenden` on a row with present planned arrival
sets `verspaetung_ab = (a + dwell) - p_d` with `a = p_a + verspaetung_an`,
`p_d` defaulting to `p_a + min_dwell` when absent, and
`dwell = max(p_d - a, min_dwell)`. -/
theorem c5_planmaessige_abfahrt (ziel : ZugZielPlanung) (pa : Int)
    (han : ziel.an = some pa) :
    planmaessigeAbfahrtAnwenden ziel =
      { ziel with
        verspaetung_ab :=
          (pa + ziel.verspaetung_an
            + max (ziel.ab.getD (pa + ziel.mindestaufenthalt)
                    - (pa + ziel.verspaetung_an)) ziel.mindestaufenthalt)
          - ziel.ab.getD (pa + ziel.mindestaufenthalt) } := by
  simp [planmaessigeAbfahrtAnwenden, han]

/-- C5 witness: scenario S2 — 4 minutes late at 10:04, planned departure
10:07, dwell floor 2: departure delay 0. -/
theorem c5_zeuge :
    zielS2.an = some 600 ∧ (planmaessigeAbfahrtAnwenden zielS2).verspaetung_ab = 0 := by
  refine ⟨rfl, ?_⟩
  rw [c5_planmaessige_abfahrt zielS2 600 rfl]
  decide

/-- Row for the C6 counterexample: not yet departed, departure delay 7. -/
def zielAbfahrtC : ZugZielPlanung :=
  { zielLeer with plan := "5", an := some 600, ab := some 602, verspaetung_ab := 7 }

/-- C6 counterexample: the claim says that in all cases other than
`at_platform ∧ delay > 0` the departure delay is set to the event delay and
the row is marked departed.  For `amgleis = True` with delay `0` the source
(lines 1308-1311) takes neither branch and leaves the row untouched: the
delay stays 7 and the row is not marked departed. -/
theorem c6_gegenbeispiel :
    ereignisAbfahrt zielAbfahrtC true 0 = zielAbfahrtC ∧
    zielAbfahrtC.abgefahren = false ∧
    zielAbfahrtC.verspaetung_ab = 7 ∧
    (7 : Int) ≠ 0 := by
  decide

/-- C6 amended: on a departure event, if `amgleis` and the delay is positive
a `Signalhalt(delay)` correction is installed as the automatic correction; if
`amgleis` is not set the departure delay is taken over and the row is marked
departed; if `amgleis` is set with delay `≤ 0` nothing changes. -/
theorem c6_ereignis_abfahrt_abgeaendert (ziel : ZugZielPlanung) (amgleis : Bool)
    (verspaetung : Int) :
    (amgleis = true → verspaetung > 0 →
      ereignisAbfahrt ziel amgleis verspaetung =
        { ziel with auto_korrektur := some (.signalhalt verspaetung) }) ∧
    (amgleis = false →
      ereignisAbfahrt ziel amgleis verspaetung =
        { ziel with verspaetung_ab := verspaetung, abgefahren := true }) ∧
    (amgleis = true → verspaetung ≤ 0 →
      ereignisAbfahrt ziel amgleis verspaetung = ziel) := by
  refine ⟨?_, ?_, ?_⟩
  · intro h1 h2
    simp [ereignisAbfahrt, h1, h2]
  · intro h1
    simp [ereignisAbfahrt, h1]
  · intro h1 h2
    simp [ereignisAbfahrt, h1]
    omega

/-- C6 witness: the `amgleis = False` branch at delay 4. -/
theorem c6_zeuge :
    ereignisAbfahrt zielAbfahrtC false 4 =
      { zielAbfahrtC with verspaetung_ab := 4, abgefahren := true } :=
  (c6_ereignis_abfahrt_abgeaendert zielAbfahrtC false 4).2.1 rfl

/-- Row for the C7 counterexample: both planned times absent. -/
def zielOhneZeiten : ZugZielPlanung :=
  { zielLeer with plan := "6", mindestaufenthalt := 2, verspaetung_an := 3 }

/-- Origin row for the C7 counterexample (its own times are present, so the
failure is caused by the waiting row's missing times). -/
def zielUrsprungC : ZugZielPlanung :=
  { zielLeer with plan := "8", an := some 500, ab := some 501 }

/-- C7 counterexample: the claim says every correction variant falls back to
`verspaetung_ab := verspaetung_an` when a needed planned time is absent and
that no correction application raises.  `AnkunftAbwarten.anwenden` has no
such fallback: on a row with both planned times absent, line 193 evaluates
`None + mindestaufenthalt` and an uncaught `TypeError` escapes the engine
(embedded as result `none` instead of the claimed fallback row). -/
theorem c7_gegenbeispiel :
    ankunftAbwartenAnwenden zielOhneZeiten zielUrsprungC 0 = none ∧
    (none : Option ZugZielPlanung) ≠
      some { zielOhneZeiten with verspaetung_ab := zielOhneZeiten.verspaetung_an } := by
  decide

/-- C7 amended: `Einfahrtszeit`, `PlanmaessigeAbfahrt`, `Ersatzzug`,
`Kupplung` and `Fluegelung` fall back to
`verspaetung_ab := verspaetung_an` when the row's planned arrival is absent;
`AnkunftAbwarten` and `AbfahrtAbwarten` have no fallback and instead raise an
uncaught exception (result `none`) when both of the row's planned times are
absent or when the origin row's needed planned time is absent. -/
theorem c7_fehlende_zeiten_abgeaendert (ziel ursprung : ZugZielPlanung)
    (w simzeit : Int) (e : Option Int) (kzug? : Option ZugDetailsPlanung) :
    (ziel.an = none →
      einfahrtszeitAnwenden ziel simzeit =
          { ziel with verspaetung_ab := ziel.verspaetung_an } ∧
      planmaessigeAbfahrtAnwenden ziel =
          { ziel with verspaetung_ab := ziel.verspaetung_an } ∧
      ersatzzugAnwenden ziel e = { ziel with verspaetung_ab := ziel.verspaetung_an } ∧
      kupplungAnwenden ziel kzug? =
          some { ziel with verspaetung_ab := ziel.verspaetung_an } ∧
      fluegelungAnwenden ziel = { ziel with verspaetung_ab := ziel.verspaetung_an }) ∧
    (ziel.an = none → ziel.ab = none →
      ankunftAbwartenAnwenden ziel ursprung w = none ∧
      abfahrtAbwartenAnwenden ziel ursprung w = none) ∧
    (ursprung.an = none → ankunftAbwartenAnwenden ziel ursprung w = none) ∧
    (ursprung.ab = none → abfahrtAbwartenAnwenden ziel ursprung w = none) := by
  refine ⟨?_, ?_, ?_, ?_⟩
  · intro h
    refine ⟨?_, ?_, ?_, ?_, ?_⟩ <;> simp [einfahrtszeitAnwenden, planmaessigeAbfahrtAnwenden,
      ersatzzugAnwenden, kupplungAnwenden, fluegelungAnwenden, h]
  · intro h1 h2
    constructor <;> simp [ankunftAbwartenAnwenden, abfahrtAbwartenAnwenden, h1, h2]
  · intro h
    simp only [ankunftAbwartenAnwenden, h]
    cases ziel.ab <;> cases ziel.an <;> simp
  · intro h
    simp only [abfahrtAbwartenAnwenden, h]
    cases ziel.ab <;> cases ziel.an <;> simp

/-- C7 witness: the amended statement at concrete rows — the fallback of
`Einfahrtszeit` and the raising behaviour of `AnkunftAbwarten`. -/
theorem c7_zeuge :
    einfahrtszeitAnwenden zielOhneZeiten 605 =
      { zielOhneZeiten with verspaetung_ab := zielOhneZeiten.verspaetung_an } ∧
    ankunftAbwartenAnwenden zielOhneZeiten zielUrsprungC 0 = none :=
  ⟨((c7_fehlende_zeiten_abgeaendert zielOhneZeiten zielUrsprungC 0 605 none none).1 rfl).1,
    ((c7_fehlende_zeiten_abgeaendert zielOhneZeiten zielUrsprungC 0 605 none none).2.1
      rfl rfl).1⟩

/-- Row of the disappearing non-visible train for the C8 counterexample. -/
def zielVerschwundenC : ZugZielPlanung :=
  { zielLeer with plan := "9", an := some 700, ab := some 701 }

/-- A known train that is not visible (`sichtbar = False`) and whose `zid`
is absent from the next snapshot. -/
def zugUnsichtbarC : ZugDetailsPlanung :=
  { zid := 5, gleis := "9", plangleis := "9", sichtbar := false, amgleis := false,
    verspaetung := 0, ausgefahren := false, fahrplan := [zielVerschwundenC] }

/-- A known visible train whose `zid` is absent from the next snapshot. -/
def zugSichtbarC : ZugDetailsPlanung :=
  { zid := 6, gleis := "9", plangleis := "9", sichtbar := true, amgleis := true,
    verspaetung := 2, ausgefahren := false, fahrplan := [zielVerschwundenC] }

/-- C8 counterexample: the claim says every known train absent from the
snapshot ends up with `ausgefahren = true` and all rows departed.  The marking
loop (planung.py lines 824-835) is guarded by `if zug.sichtbar` (line 830): a
known but not-visible train absent from the snapshot is left untouched —
`ausgefahren` stays `false` and its rows stay undeparted. -/
theorem c8_gegenbeispiel :
    zugUnsichtbarC.zid ∉ ([] : List Int) ∧
    zugAusfahrtMarkieren [] zugUnsichtbarC = zugUnsichtbarC ∧
    zugUnsichtbarC.ausgefahren = false ∧
    (zugAusfahrtMarkieren [] zugUnsichtbarC).fahrplan.all
      (fun z => z.abgefahren) = false := by
  decide

/-- C8 amended: a known train whose `zid` is absent from the ingested
snapshot *and which is currently visible* gets `ausgefahren = true`, its
visible/at-platform flags cleared, its current and planned track cleared and
every row marked departed; an absent train that is not visible is left
unchanged. -/
theorem c8_ausfahrt_abgeaendert (snapshot : List Int) (zug : ZugDetailsPlanung)
    (habs : zug.zid ∉ snapshot) :
    (zug.sichtbar = true →
      (zugAusfahrtMarkieren snapshot zug).ausgefahren = true ∧
      (zugAusfahrtMarkieren snapshot zug).sichtbar = false ∧
      (zugAusfahrtMarkieren snapshot zug).amgleis = false ∧
      (zugAusfahrtMarkieren snapshot zug).gleis = "" ∧
      (zugAusfahrtMarkieren snapshot zug).plangleis = "" ∧
      ∀ zeile ∈ (zugAusfahrtMarkieren snapshot zug).fahrplan, zeile.abgefahren = true) ∧
    (zug.sichtbar = false → zugAusfahrtMarkieren snapshot zug = zug) := by
  constructor
  · intro hs
    have hm : zugAusfahrtMarkieren snapshot zug =
        { zug with
          sichtbar := false, amgleis := false, gleis := "", plangleis := "",
          ausgefahren := true,
          fahrplan := zug.fahrplan.map fun zeile => { zeile with abgefahren := true } } := by
      simp [zugAusfahrtMarkieren, habs, hs]
    rw [hm]
    refine ⟨rfl, rfl, rfl, rfl, rfl, ?_⟩
    intro zeile hz
    simp only [List.mem_map] at hz
    obtain ⟨a, _, rfl⟩ := hz
    rfl
  · intro hs
    simp [zugAusfahrtMarkieren, habs, hs]

/-- C8 witness: the amended statement at the concrete visible train. -/
theorem c8_zeuge :
    (zugAusfahrtMarkieren [] zugSichtbarC).ausgefahren = true ∧
    (zugAusfahrtMarkieren [] zugSichtbarC).sichtbar = false ∧
    ∀ zeile ∈ (zugAusfahrtMarkieren [] zugSichtbarC).fahrplan, zeile.abgefahren = true := by
  have h := (c8_ausfahrt_abgeaendert [] zugSichtbarC (by simp)).1 rfl
  exact ⟨h.1, h.2.1, h.2.2.2.2.2⟩

/-- C9: `verspaetungen_korrigieren` is idempotent on every engine state: the
stored topological order is a one-shot generator (`nx.topological_sort`,
line 1020) that the first sweep consumes completely, so a second call with no
ingestion in between iterates an exhausted iterator, visits no node, and
leaves every row delay and every published `v_an`/`v_ab` attribute — indeed
the whole state — unchanged. -/
theorem c9_idempotenz (p : Planung) :
    verspaetungenKorrigieren (verspaetungenKorrigieren p) = verspaetungenKorrigieren p := by
  apply verspaetungenKorrigieren_leer
  simp only [verspaetungenKorrigieren]
  exact sweepFuel_nil _ _ _ (le_refl _)
